import Mathlib

/-!
Verification development for the llm-trading-bot repository.

We shallowly embed the paper-trading ledger (`src/trading/account.py`), the
risk validator (`src/trading/risk.py`), the SQLite store layer
(`src/web/database.py`) and the ordering skeleton of one analysis cycle
(`src/run_analysis_bot.py`).  Monetary quantities and prices are embedded as
rationals; Python dicts keyed by coin are embedded as association lists with
the usual replace-on-insert dict semantics.  Wall-clock timestamps and the
formatted id strings derived from them do not influence any of the verified
properties; they are passed in as explicit parameters where the source reads
the clock.
-/

namespace LLMBot

/-- Position side; the source stores the strings `'long'` / `'short'` and
branches with `if self.side == 'long': ... else: ...`. -/
inductive Side where
  | long
  | short
deriving DecidableEq, Repr

/-- Structure `Position` from `src/trading/account.py` (lines 23-71).  The
`entry_time : datetime` field of the source is omitted: no embedded operation
reads it. -/
structure Position where
  position_id : String
  coin : String
  side : Side
  entry_price : ℚ
  quantity_usd : ℚ
  leverage : ℚ
deriving DecidableEq, Repr

/-- Method `Position.calculate_pnl` (account.py lines 44-64):
`position_size = quantity_usd * leverage / entry_price`; long profits when the
price rises, the `else` branch (short) when it falls. -/
def Position.calculate_pnl (p : Position) (current_price : ℚ) : ℚ :=
  let position_size : ℚ := p.quantity_usd * p.leverage / p.entry_price
  match p.side with
  | Side.long => (current_price - p.entry_price) * position_size
  | Side.short => (p.entry_price - current_price) * position_size

/-- Method `Position.get_margin` (account.py lines 66-68): the margin is the USD
amount committed. -/
def Position.get_margin (p : Position) : ℚ :=
  p.quantity_usd

/-! ### Python-dict embedding

`TradingAccount.positions` is a Python `Dict[str, Position]`.  We embed it as
an association list whose keys stay distinct; `dictInsert` replaces in place
when the key is present and appends otherwise, exactly like `d[k] = v`. -/

def dictContains (d : List (String × Position)) (k : String) : Bool :=
  d.any (fun e => e.1 = k)

def dictGet? (d : List (String × Position)) (k : String) : Option Position :=
  (d.find? (fun e => e.1 = k)).map (fun e => e.2)

def dictInsert (d : List (String × Position)) (k : String) (v : Position) :
    List (String × Position) :=
  if dictContains d k then
    d.map (fun e => if e.1 = k then (k, v) else e)
  else
    d ++ [(k, v)]

def dictErase (d : List (String × Position)) (k : String) :
    List (String × Position) :=
  d.filter (fun e => ¬ e.1 = k)

/-- Distinct keys, as holds for any Python dict. -/
def dictWF (d : List (String × Position)) : Prop :=
  (d.map (fun e => e.1)).Nodup

/-- One row appended to the store's `positions` table by
`web.database.close_position` (database.py lines 432-445), as far as the
ledger claims read it back: exit price and the recorded realized P&L. -/
structure ClosedTrade where
  position_id : String
  exit_price : ℚ
  realized_pnl : ℚ
deriving DecidableEq, Repr

/-- Structure `TradingAccount` state (account.py lines 74-98).  The two store
write-throughs the ledger performs (`save_position_entry` on open,
`close_position` on close) are modelled by the append-only `closed` log of
exit rows; entry rows are not read back by any claim. -/
structure TradingAccount where
  initial_balance : ℚ
  balance : ℚ
  realized_pnl : ℚ
  positions : List (String × Position)
  closed : List ClosedTrade
deriving DecidableEq, Repr

/-- A fresh account (`__init__` with an empty database: `_load_from_database`
finds no snapshot and no open positions). -/
def TradingAccount.fresh (initial_balance : ℚ) : TradingAccount :=
  { initial_balance := initial_balance
    balance := initial_balance
    realized_pnl := 0
    positions := []
    closed := [] }

/-- Method `TradingAccount.can_open_position` (account.py lines 160-170):
`return self.balance >= quantity_usd`. -/
def TradingAccount.can_open_position (a : TradingAccount) (quantity_usd : ℚ) :
    Bool :=
  quantity_usd ≤ a.balance

/-- Method `TradingAccount.open_position` (account.py lines 172-237).  Returns `none`
exactly when the balance is insufficient.  When a position for `coin` already
exists the source only prints a warning ("closing old one first ... For now,
just replace it") and falls through: it deducts the margin again and the dict
assignment replaces the old entry.  `position_id` is generated from the clock
in the source and is a parameter here. -/
def TradingAccount.open_position (a : TradingAccount) (coin : String)
    (side : Side) (entry_price quantity_usd leverage : ℚ)
    (position_id : String) : Option (Position × TradingAccount) :=
  if ¬ a.can_open_position quantity_usd then
    none
  else
    let position : Position :=
      { position_id := position_id
        coin := coin
        side := side
        entry_price := entry_price
        quantity_usd := quantity_usd
        leverage := leverage }
    some (position,
      { a with
        balance := a.balance - quantity_usd
        positions := dictInsert a.positions coin position })

/-- Method `TradingAccount.close_position` (account.py lines 239-278).  Returns
`none` when no position is open for `coin`; otherwise realizes
`calculate_pnl exit_price`, returns margin plus P&L to the balance, writes the
exit row through the store, and removes the coin from the open map. -/
def TradingAccount.close_position (a : TradingAccount) (coin : String)
    (exit_price : ℚ) : Option (ℚ × TradingAccount) :=
  match dictGet? a.positions coin with
  | none => none
  | some position =>
    let pnl := position.calculate_pnl exit_price
    some (pnl,
      { a with
        balance := a.balance + position.get_margin + pnl
        realized_pnl := a.realized_pnl + pnl
        closed := a.closed ++
          [{ position_id := position.position_id
             exit_price := exit_price
             realized_pnl := pnl }]
        positions := dictErase a.positions coin })

/-! ### Liquidation (src/trading/risk.py and the spec's ledger operation) -/

/-- Method `RiskManager.calculate_liquidation_price` (risk.py lines 174-218):
`threshold = 1/leverage`; long liquidates at `entry * (1 - threshold)`, short
at `entry * (1 + threshold)`.  The source raises `ValueError` on
`leverage <= 0`; callers in the embedded claims always pass the positive
leverage of an existing position, so the raising branch is modelled by the
happy-path formula guarded by hypotheses where it matters. -/
def calculate_liquidation_price (entry_price leverage : ℚ) (side : Side) : ℚ :=
  let liquidation_threshold : ℚ := 1 / leverage
  match side with
  | Side.long => entry_price * (1 - liquidation_threshold)
  | Side.short => entry_price * (1 + liquidation_threshold)

/-- A current price has crossed the liquidation threshold of a position:
for a long the price is at or below the liquidation price, for a short at or
above it (the move of `1/leverage` against entry zeroes the margin). -/
def crossedLiquidation (p : Position) (current_price : ℚ) : Bool :=
  match p.side with
  | Side.long => current_price ≤ calculate_liquidation_price p.entry_price p.leverage p.side
  | Side.short => calculate_liquidation_price p.entry_price p.leverage p.side ≤ current_price

def lookupPrice (prices : List (String × ℚ)) (coin : String) : Option ℚ :=
  (prices.find? (fun e => e.1 = coin)).map (fun e => e.2)

/-- Does an open position liquidate under the given price map? -/
def liquidatesUnder (prices : List (String × ℚ)) (e : String × Position) :
    Bool :=
  match lookupPrice prices e.1 with
  | some price => crossedLiquidation e.2 price
  | none => false

/-- Modelled from the spec: `TradingAccount.check_liquidation` is called at
`src/run_analysis_bot.py` lines 127 and 697 but is defined nowhere under the
repository sources.  Following spec section 4.2: "`check_liquidation(prices) →
[position_id]`: for each open position, if current price has crossed the
position's liquidation threshold, close it at the liquidation price and
record realized_pnl."  Each crossed position is closed with the ledger's close
semantics (margin plus P&L returned to balance, exit row recorded) at its
liquidation price; the liquidation-price formula itself is the one of
`src/trading/risk.py`. -/
def TradingAccount.check_liquidation (a : TradingAccount)
    (prices : List (String × ℚ)) : List String × TradingAccount :=
  let liq := a.positions.filter (fun e => liquidatesUnder prices e)
  let rest := a.positions.filter (fun e => !(liquidatesUnder prices e))
  let pnlOf : Position → ℚ := fun p =>
    p.calculate_pnl (calculate_liquidation_price p.entry_price p.leverage p.side)
  (liq.map (fun e => e.2.position_id),
    { a with
      balance := a.balance + (liq.map (fun e => e.2.get_margin + pnlOf e.2)).sum
      realized_pnl := a.realized_pnl + (liq.map (fun e => pnlOf e.2)).sum
      closed := a.closed ++ liq.map (fun e =>
        { position_id := e.2.position_id
          exit_price := calculate_liquidation_price e.2.entry_price e.2.leverage e.2.side
          realized_pnl := pnlOf e.2 })
      positions := rest })

/-! ### Risk validation (src/trading/risk.py) -/

/-- Enum `TradeSignal` from `src/llm/parser.py` lines 20-25. -/
inductive TradeSignal where
  | buy_to_enter
  | sell_to_enter
  | hold
  | close
deriving DecidableEq, Repr

/-- Model `ExitPlan` from `src/llm/parser.py` lines 28-40. -/
structure ExitPlan where
  profit_target : Option ℚ
  stop_loss : Option ℚ
deriving DecidableEq, Repr

/-- Model `TradeDecision` from `src/llm/parser.py` lines 43-52 (the fields the risk
validator reads; `justification` and `raw_response` are unread there). -/
structure TradeDecision where
  coin : String
  signal : TradeSignal
  quantity_usd : ℚ
  leverage : ℚ
  confidence : ℚ
  exit_plan : ExitPlan
deriving DecidableEq, Repr

/-- The three `config.settings` fields `RiskManager._validate_entry_signal`
reads (settings.py lines 61-76; pydantic enforces `max_position_size_usd > 0`,
`max_leverage > 0` and `daily_loss_limit_usd ≥ 0`). -/
structure RiskSettings where
  max_position_size_usd : ℚ
  max_leverage : ℚ
  daily_loss_limit_usd : ℚ
deriving DecidableEq, Repr

/-- Stable tags for the rejection reasons produced by
`RiskManager._validate_entry_signal`; the source interpolates amounts into
these messages, which does not affect which check fired. -/
def reasonSizeExceedsMax : String := "Position size exceeds maximum"
def reasonLeverageExceedsMax : String := "Leverage exceeds maximum"
def reasonSizeTooSmall : String := "Position size too small"
def reasonInsufficientBalance : String := "Insufficient balance"
def reasonDailyLossLimit : String := "Daily loss limit exceeded"
def reasonPositionAlreadyOpen : String := "Position already open"

/-- Method `RiskManager._validate_entry_signal` (risk.py lines 86-172), with the
daily realized P&L (obtained in the source via `get_daily_realized_pnl`)
passed in.  Checks, in source order: (1) size vs `max_position_size_usd`;
(2) leverage vs `max_leverage`; (3) minimum size $1; (4) available balance;
(5) daily loss limit; (6) a position already open for the coin.  Checks 7
and 8 of the source only log warnings and never reject.  There is no check of
the open-position count against any `max_open_positions` setting. -/
def validate_entry_signal (s : RiskSettings) (a : TradingAccount)
    (daily_pnl : ℚ) (d : TradeDecision) : Bool × String :=
  if s.max_position_size_usd < d.quantity_usd then
    (false, reasonSizeExceedsMax)
  else if s.max_leverage < d.leverage then
    (false, reasonLeverageExceedsMax)
  else if d.quantity_usd < 1 then
    (false, reasonSizeTooSmall)
  else if a.balance < d.quantity_usd then
    (false, reasonInsufficientBalance)
  else if daily_pnl < -s.daily_loss_limit_usd then
    (false, reasonDailyLossLimit)
  else if dictContains a.positions d.coin then
    (false, reasonPositionAlreadyOpen)
  else
    (true, "")

/-! ### Daily realized P&L (src/trading/risk.py lines 248-290) -/

/-- A row of the `positions` table as returned by
`web.database.get_closed_positions`: the two columns
`RiskManager.get_daily_realized_pnl` reads.  Both columns are nullable in the
schema, hence the options.  `exit_time` is an abstract timestamp. -/
structure ClosedRow where
  exit_time : Option Nat
  realized_pnl : Option ℚ
deriving DecidableEq, Repr

/-- The summation loop of `get_daily_realized_pnl`: rows without an
`exit_time` are skipped (`if pos.get('exit_time'):`); rows closed today add
`pos.get('realized_pnl', 0.0)` — when that column is NULL the Python addition
`daily_pnl += None` raises a `TypeError`, modelled as the error case. -/
def dailyPnlLoop (rows : List ClosedRow) (today_start today_end : Nat) :
    Except String ℚ :=
  rows.foldlM
    (fun acc r =>
      match r.exit_time with
      | none => Except.ok acc
      | some t =>
        if today_start ≤ t ∧ t < today_end then
          match r.realized_pnl with
          | some pnl => Except.ok (acc + pnl)
          | none => Except.error "TypeError"
        else
          Except.ok acc)
    0

/-- Method `RiskManager.get_daily_realized_pnl` (risk.py lines 248-290).  The store
read `get_closed_positions(limit=500)` is passed in as an `Except` value; the
whole body is wrapped in `try/except` returning `0.0` on any error. -/
def get_daily_realized_pnl (read_result : Except String (List ClosedRow))
    (today_start today_end : Nat) : ℚ :=
  match read_result >>= (fun rows => dailyPnlLoop rows today_start today_end) with
  | Except.ok v => v
  | Except.error _ => 0

/-! ### Sharpe ratio (src/trading/account.py lines 280-340)

`TradingAccount.calculate_sharpe_ratio` begins its `try` block with
`closed_positions = get_closed_positions(limit=500)`.  The module
`src/trading/account.py` imports, at lines 14-20, exactly the five names
listed below from `web.database` — `get_closed_positions` is not among them
and is bound nowhere else in the module, so that first statement raises
`NameError`, which the bare `except Exception` turns into a `None` return on
every call. -/

/-- The names `src/trading/account.py` imports from `web.database`
(account.py lines 14-20; `close_position` is bound as `db_close_position`). -/
def accountModuleImports : List String :=
  ["save_account_state", "get_latest_account_state", "save_position_entry",
   "db_close_position", "get_open_positions"]

/-- Whether a `web.database` helper name resolves inside
`src/trading/account.py`. -/
def accountModuleResolves (n : String) : Bool :=
  accountModuleImports.contains n

/-- The two columns of a closed-position row that the sharpe computation
reads. -/
structure SharpeRow where
  realized_pnl : Option ℚ
  quantity_usd : ℚ
deriving DecidableEq, Repr

/-- The per-trade return samples: `(realized_pnl / quantity_usd) * 100` for
rows with a non-NULL `realized_pnl` and truthy positive `quantity_usd`
(account.py lines 308-316). -/
def sharpeReturns (rows : List SharpeRow) : List ℚ :=
  (rows.filterMap (fun r =>
    match r.realized_pnl with
    | some pnl => if 0 < r.quantity_usd then some (pnl / r.quantity_usd * 100) else none
    | none => none))

/-- The value the `try` block of `calculate_sharpe_ratio` would return.  The
Python float `(mean - risk_free_rate) / std` is represented by the pair of
its numerator and the sample variance (`std = √variance`, ddof=1): only the
presence or absence of a numeric result matters to the specification, and the
pair determines the float. -/
structure SharpeValue where
  excess_mean : ℚ
  sample_variance : ℚ
deriving DecidableEq, Repr

/-- Mean of a list of rationals (`np.mean`). -/
def listMean (xs : List ℚ) : ℚ :=
  xs.sum / xs.length

/-- Sample variance with `ddof = 1` (`np.std(xs, ddof=1) ** 2`). -/
def sampleVariance (xs : List ℚ) : ℚ :=
  (xs.map (fun x => (x - listMean xs) ^ 2)).sum / (xs.length - 1 : ℚ)

/-- The body of `calculate_sharpe_ratio`'s `try` block *as written* (account.py
lines 300-336), applicable only when its first statement resolves: fewer than
2 rows → `None`; fewer than 2 usable return samples → `None`; zero standard
deviation → `None`; otherwise the numeric sharpe value. -/
def sharpeTryBody (rows : List SharpeRow) (risk_free_rate : ℚ) :
    Option SharpeValue :=
  if rows.length < 2 then
    none
  else
    let returns := sharpeReturns rows
    if returns.length < 2 then
      none
    else if sampleVariance returns = 0 then
      none
    else
      some { excess_mean := listMean returns - risk_free_rate
             sample_variance := sampleVariance returns }

/-- Method `TradingAccount.calculate_sharpe_ratio` (account.py lines 280-340): the
`try` block's first statement is a call to the unresolved name
`get_closed_positions`, and the surrounding `except Exception` returns `None`
on that `NameError`; the rest of the body is dead code. -/
def calculate_sharpe_ratio (closed_rows : List SharpeRow)
    (risk_free_rate : ℚ) : Option SharpeValue :=
  if accountModuleResolves "get_closed_positions" then
    sharpeTryBody (closed_rows.take 500) risk_free_rate
  else
    none

/-! ### Store rows (src/web/database.py) -/

/-- A row of the `positions` table, with the columns
`web.database.close_position` touches or that determine open/closed status.
`exit_time` is an abstract timestamp. -/
structure PosRow where
  position_id : String
  coin : String
  exit_time : Option Nat
  exit_price : Option ℚ
  realized_pnl : Option ℚ
  status : String
deriving DecidableEq, Repr

/-- Function `web.database.close_position` (database.py lines 432-445): a single
unconditional `UPDATE positions SET exit_time, exit_price, realized_pnl,
status='closed' WHERE position_id = ?`, returning `cursor.rowcount > 0`.
There is no check of the row's current status. -/
def db_close_position (table : List PosRow) (position_id : String)
    (exit_time : Nat) (exit_price realized_pnl : ℚ) : List PosRow × Bool :=
  (table.map (fun r =>
      if r.position_id = position_id then
        { r with
          exit_time := some exit_time
          exit_price := some exit_price
          realized_pnl := some realized_pnl
          status := "closed" }
      else r),
   table.any (fun r => r.position_id = position_id))

/-- A row of the `user_inputs` table (database.py lines 165-174 plus the
migrated `message_type` and `image_path` columns). -/
structure UserInputRow where
  id : Nat
  timestamp : Nat
  message : String
  message_type : String
  image_path : Option String
  is_active : Bool
deriving DecidableEq, Repr

/-- Function `web.database.save_user_input` (database.py lines 557-580): inside one
`get_db_connection` transaction, `UPDATE user_inputs SET is_active = 0 WHERE
is_active = 1`, then `INSERT` of the new row with `is_active = 1`.  The
autoincrement id and the timestamp are parameters. -/
def save_user_input (table : List UserInputRow) (new_id timestamp : Nat)
    (message message_type : String) (image_path : Option String) :
    List UserInputRow × Nat :=
  (table.map (fun r => if r.is_active then { r with is_active := false } else r)
      ++ [{ id := new_id
            timestamp := timestamp
            message := message
            message_type := message_type
            image_path := image_path
            is_active := true }],
   new_id)

/-! ### The spec's P&L formula and the paper-ledger invariant -/

/-- Spec formula for realized P&L (spec section 4.2), stated from the spec's
words for comparison with the source's `Position.calculate_pnl`:
`units = (quantity_usd × leverage) / entry_price`; long:
`(exit − entry) × units`; short: `(entry − exit) × units`. -/
def specPnlFormula (side : Side)
    (entry_price exit_price quantity_usd leverage : ℚ) : ℚ :=
  let units : ℚ := quantity_usd * leverage / entry_price
  match side with
  | Side.long => (exit_price - entry_price) * units
  | Side.short => (entry_price - exit_price) * units

/-- Sum of the committed margins of the open positions. -/
def marginSum (d : List (String × Position)) : ℚ :=
  (d.map (fun e => e.2.quantity_usd)).sum

/-- Sum of the recorded realized P&L over the closed-position rows. -/
def closedPnlSum (l : List ClosedTrade) : ℚ :=
  (l.map (fun r => r.realized_pnl)).sum

/-- Invariant claimed by the spec for paper mode:
`balance + Σ margin_of_open_positions = initial_balance + Σ realized_pnl_closed`. -/
def ledgerInvariant (a : TradingAccount) : Prop :=
  a.balance + marginSum a.positions =
    a.initial_balance + closedPnlSum a.closed

/-- A ledger operation: one call of `open_position` or `close_position`. -/
inductive LedgerOp where
  | openOp (coin : String) (side : Side)
      (entry_price quantity_usd leverage : ℚ) (position_id : String)
  | closeOp (coin : String) (exit_price : ℚ)
deriving DecidableEq, Repr

/-- Apply one ledger operation; a failed call (source returns `None` after an
early-return) leaves the account unchanged. -/
def applyOp (a : TradingAccount) : LedgerOp → TradingAccount
  | LedgerOp.openOp c s e q l pid =>
    match a.open_position c s e q l pid with
    | some pr => pr.2
    | none => a
  | LedgerOp.closeOp c x =>
    match a.close_position c x with
    | some pr => pr.2
    | none => a

/-- Run a sequence of ledger operations. -/
def runOps (a : TradingAccount) (ops : List LedgerOp) : TradingAccount :=
  ops.foldl applyOp a

/-- Checks that no `openOp` in the sequence targets a coin that already has an
open position at that point (such an open *replaces* the old position in the
source and leaks its margin). -/
def noReplacement (a : TradingAccount) : List LedgerOp → Bool
  | [] => true
  | op :: rest =>
    (match op with
     | LedgerOp.openOp c _ _ _ _ _ => !(dictContains a.positions c)
     | LedgerOp.closeOp _ _ => true) &&
    noReplacement (applyOp a op) rest

/-- Default value of the `max_open_positions` row of the `bot_settings` table
(database.py line 194); `config.settings` has no such field and
`RiskManager` never reads this setting. -/
def default_max_open_positions : Nat := 3

/-! ### Ordering skeleton of one analysis cycle (src/run_analysis_bot.py)

For the temporal claim we embed the cycle's observable event order from the
decision insert on.  `run_analysis_cycle` (lines 535-905) inserts the
decision row (`logger.log_decision_from_trade_decision`, line 841) and then
calls `execute_trade` (lines 293-533, called at line 851); every
`update_decision_execution` call sits inside `execute_trade`.  Earlier cycle
phases (market fetch, the liquidation sweep at line 697, prompt building, the
LLM call and parsing) precede the insert and perform no trade execution of
the decision and no execution-status update; paths that return before line
841 never reach execution and are outside the claim. -/

/-- Observable cycle events: the decision insert, a trade-execution action
(an exchange order or a paper-ledger mutation for the decision), an
`update_decision_execution` call, and other bookkeeping (store writes,
logging, the liquidation sweep). -/
inductive CycleEv where
  | decisionInsert
  | execAction (label : String)
  | statusUpdate (status : String)
  | other (label : String)
deriving DecidableEq, Repr

/-- One entry of the `statuses` list of a Hyperliquid order response
(run_analysis_bot.py lines 351-360): a fill with its average price, an error
with its message, or anything else. -/
inductive LiveStatus where
  | filledS (avgPx : ℚ)
  | errorS (msg : String)
  | otherS
deriving DecidableEq, Repr

/-- Outcome of `executor.market_open_usd`: `apiOk` is the truthiness of
`result and result.get("status") == "ok"`. -/
structure LiveOpenResult where
  apiOk : Bool
  statuses : List LiveStatus
deriving DecidableEq, Repr

/-- State of the status-processing loop (run_analysis_bot.py lines 346-360):
`filled` flag, last fill price, last error message. -/
def scanStatuses (ss : List LiveStatus) : Bool × Option ℚ × Option String :=
  ss.foldl
    (fun acc s =>
      match s with
      | LiveStatus.filledS px => (true, some px, acc.2.2)
      | LiveStatus.errorS m => (acc.1, acc.2.1, some m)
      | LiveStatus.otherS => acc)
    (false, none, none)

/-- Python float truthiness for an optional fill price: present and nonzero. -/
def pyTruthy (x : Option ℚ) : Bool :=
  match x with
  | some q => ¬ q = 0
  | none => false

/-- Configuration of one cycle's execution phase: mode, decision signal, and
the outcomes of the external calls the branches depend on. -/
structure CycleCfg where
  is_live : Bool
  signal : TradeSignal
  liveOpen : LiveOpenResult
  liveCloseOk : Bool
  dbHasPosition : Bool
  paperHasPosition : Bool
deriving DecidableEq, Repr

/-- Events emitted by `execute_trade` (run_analysis_bot.py lines 293-533),
with a flag recording whether the call raised.  The paper entry branch (line
397) calls `account.can_open_position(decision.quantity_usd,
decision.leverage)` — two arguments to a one-parameter method — so it raises
`TypeError` before any action or status update. -/
def executeTradeEvents (c : CycleCfg) : List CycleEv × Bool :=
  match c.signal with
  | TradeSignal.buy_to_enter | TradeSignal.sell_to_enter =>
    if c.is_live then
      (CycleEv.execAction "market_open_usd" ::
        (if c.liveOpen.apiOk then
          (let scanned := scanStatuses c.liveOpen.statuses
           let filled := scanned.1
           let fill_price := scanned.2.1
           let error_msg := scanned.2.2
           (if filled && pyTruthy fill_price then
              [CycleEv.other "log_position_entry",
               CycleEv.statusUpdate "success"]
            else if error_msg.isSome then
              [CycleEv.statusUpdate "failed", CycleEv.other "log_bot_status"]
            else []) ++
           (if (¬ filled) && (¬ error_msg.isSome) then
              [CycleEv.statusUpdate "failed"]
            else []))
         else
           [CycleEv.statusUpdate "failed"]),
       false)
    else
      ([], true)
  | TradeSignal.close =>
    if c.is_live then
      (CycleEv.execAction "market_close" ::
        (if c.liveCloseOk then
          CycleEv.statusUpdate "success" ::
            (if c.dbHasPosition then
              [CycleEv.other "db_close_position"]
             else
              [CycleEv.other "save_position_entry",
               CycleEv.other "db_close_position"])
         else
           [CycleEv.statusUpdate "failed"]),
       false)
    else
      (if c.paperHasPosition then
        [CycleEv.execAction "account_close_position",
         CycleEv.statusUpdate "success"]
       else
        [CycleEv.statusUpdate "skipped"],
       false)
  | TradeSignal.hold =>
    ([CycleEv.statusUpdate "success"], false)

/-- Event trace of one cycle from the liquidation sweep through the
post-execution bookkeeping, for a cycle that reaches the decision insert at
line 841.  A raise inside `execute_trade` propagates to the cycle's
`except` (line 899), skipping the post-execution writes. -/
def cycleTrace (c : CycleCfg) : List CycleEv :=
  (if c.is_live then [] else [CycleEv.other "check_liquidation"]) ++
  CycleEv.decisionInsert ::
    (let er := executeTradeEvents c
     er.1 ++
       (if er.2 then []
        else [CycleEv.other "save_account_state",
              CycleEv.other "log_bot_status"]))

/-- Phase scan deciding the claimed ordering over a trace: phase 0 (before
the insert) admits only bookkeeping events; the insert moves to phase 1,
where execution actions may occur; the first status update moves to phase 2,
after which no execution action may occur.  `true` iff the decision insert
precedes every execution action and every status update, and every status
update comes after every execution action. -/
def orderedScan : Nat → List CycleEv → Bool
  | _, [] => true
  | 0, CycleEv.decisionInsert :: rest => orderedScan 1 rest
  | 0, CycleEv.other _ :: rest => orderedScan 0 rest
  | 0, CycleEv.execAction _ :: _ => false
  | 0, CycleEv.statusUpdate _ :: _ => false
  | 1, CycleEv.execAction _ :: rest => orderedScan 1 rest
  | 1, CycleEv.statusUpdate _ :: rest => orderedScan 2 rest
  | 1, CycleEv.other _ :: rest => orderedScan 1 rest
  | 1, CycleEv.decisionInsert :: _ => false
  | 2, CycleEv.execAction _ :: _ => false
  | 2, CycleEv.statusUpdate _ :: rest => orderedScan 2 rest
  | 2, CycleEv.other _ :: rest => orderedScan 2 rest
  | 2, CycleEv.decisionInsert :: _ => false
  | _ + 3, _ :: _ => false

/-! ### Claim C5: realized P&L formula -/

/-- C5: whenever the paper ledger closes a position, the realized P&L it
returns and records in the exit row equals the spec formula
`units = (quantity_usd × leverage) / entry_price`, long
`(exit − entry) × units`, short `(entry − exit) × units`.  The equality is
exact over ℚ, hence in particular within the claimed 1e-6 relative
tolerance. -/
theorem close_position_records_spec_pnl (a : TradingAccount) (coin : String)
    (exit_price pnl : ℚ) (a' : TradingAccount)
    (h : a.close_position coin exit_price = some (pnl, a')) :
    ∃ p, dictGet? a.positions coin = some p ∧
      pnl = specPnlFormula p.side p.entry_price exit_price
              p.quantity_usd p.leverage ∧
      a'.closed = a.closed ++
        [{ position_id := p.position_id, exit_price := exit_price,
           realized_pnl := pnl }] := by
  unfold TradingAccount.close_position at h
  cases hg : dictGet? a.positions coin with
  | none => rw [hg] at h; cases h
  | some p =>
    rw [hg] at h
    simp only [Option.some.injEq, Prod.mk.injEq] at h
    obtain ⟨hpnl, hstate⟩ := h
    subst hpnl
    subst hstate
    refine ⟨p, rfl, ?_, rfl⟩
    cases hs : p.side <;>
      simp [Position.calculate_pnl, specPnlFormula, hs]

/-- Witness for C5 at a concrete close: long 50 USD at 2x entered at 100,
closed at 110, realized P&L 10. -/
theorem close_position_records_spec_pnl_witness :
    (TradingAccount.close_position
      { initial_balance := 1000, balance := 950, realized_pnl := 0,
        positions := [("BTC",
          { position_id := "BTC_1", coin := "BTC", side := Side.long,
            entry_price := 100, quantity_usd := 50, leverage := 2 })],
        closed := [] } "BTC" 110 =
      some (10,
        { initial_balance := 1000, balance := 1010, realized_pnl := 10,
          positions := [],
          closed := [{ position_id := "BTC_1", exit_price := 110,
                       realized_pnl := 10 }] })) ∧
    (∃ p, dictGet?
        [("BTC",
          { position_id := "BTC_1", coin := "BTC", side := Side.long,
            entry_price := 100, quantity_usd := 50, leverage := 2 })] "BTC" =
          some p ∧
      (10 : ℚ) = specPnlFormula p.side p.entry_price 110
                   p.quantity_usd p.leverage ∧
      [({ position_id := "BTC_1", exit_price := 110,
          realized_pnl := 10 } : ClosedTrade)] = [] ++
        [{ position_id := p.position_id, exit_price := 110,
           realized_pnl := 10 }]) :=
  ⟨by
    norm_num [TradingAccount.close_position, dictGet?, dictErase,
    Position.calculate_pnl, Position.get_margin, List.find?],
   close_position_records_spec_pnl
     { initial_balance := 1000, balance := 950, realized_pnl := 0,
       positions := [("BTC",
         { position_id := "BTC_1", coin := "BTC", side := Side.long,
           entry_price := 100, quantity_usd := 50, leverage := 2 })],
       closed := [] } "BTC" 110 10
     { initial_balance := 1000, balance := 1010, realized_pnl := 10,
       positions := [],
       closed := [{ position_id := "BTC_1", exit_price := 110,
                    realized_pnl := 10 }] }
     (by
      norm_num [TradingAccount.close_position, dictGet?, dictErase,
    Position.calculate_pnl, Position.get_margin, List.find?])⟩

/-! ### Claim C1: opening over an existing position -/

/-- C1 counterexample: with a BTC position already open (balance 900 after
committing 100 of margin), a second `open_position` for BTC does not fail —
it returns a new `Position`, deducts another 100 from the balance (900 →
800), and replaces the open-map entry, refuting "fails ... and the balance
and the set of open positions are left unchanged". -/
theorem open_position_duplicate_counterexample :
    dictContains
        [("BTC",
          ({ position_id := "BTC_1", coin := "BTC", side := Side.long,
             entry_price := 100, quantity_usd := 100, leverage := 2 } :
            Position))] "BTC" = true ∧
    TradingAccount.open_position
      { initial_balance := 1000, balance := 900, realized_pnl := 0,
        positions := [("BTC",
          { position_id := "BTC_1", coin := "BTC", side := Side.long,
            entry_price := 100, quantity_usd := 100, leverage := 2 })],
        closed := [] } "BTC" Side.long 90 100 3 "BTC_2" =
      some
        ({ position_id := "BTC_2", coin := "BTC", side := Side.long,
           entry_price := 90, quantity_usd := 100, leverage := 3 },
         { initial_balance := 1000, balance := 800, realized_pnl := 0,
           positions := [("BTC",
             { position_id := "BTC_2", coin := "BTC", side := Side.long,
               entry_price := 90, quantity_usd := 100, leverage := 3 })],
           closed := [] }) := by
  refine ⟨by decide, ?_⟩
  norm_num [TradingAccount.open_position, TradingAccount.can_open_position,
    dictInsert, dictContains, List.find?]

/-- C1 amended: calling the ledger's `open_position` for a coin that already
has an open position does not fail.  Whenever `quantity_usd ≤ balance` it
returns a new `Position`, deducts `quantity_usd` from the balance again, and
replaces the coin's entry in the open-position map (the replaced position's
margin is not restored); it returns `None` only when `quantity_usd` exceeds
the balance, in which case the account is unchanged. -/
theorem open_position_on_open_coin (a : TradingAccount) (coin : String)
    (side : Side) (entry_price quantity_usd leverage : ℚ)
    (position_id : String)
    (hdup : dictContains a.positions coin = true) :
    a.open_position coin side entry_price quantity_usd leverage position_id =
      (if quantity_usd ≤ a.balance then
        some
          ({ position_id := position_id, coin := coin, side := side,
             entry_price := entry_price, quantity_usd := quantity_usd,
             leverage := leverage },
           { a with
             balance := a.balance - quantity_usd,
             positions := a.positions.map (fun e =>
               if e.1 = coin then
                 (coin,
                  { position_id := position_id, coin := coin, side := side,
                    entry_price := entry_price, quantity_usd := quantity_usd,
                    leverage := leverage })
               else e) })
       else none) := by
  unfold TradingAccount.open_position TradingAccount.can_open_position
  by_cases hb : quantity_usd ≤ a.balance <;>
    simp [hb, dictInsert, hdup]

/-- Witness for C1 amended, at the concrete duplicate-open input. -/
theorem open_position_on_open_coin_witness :
    dictContains
        [("BTC",
          ({ position_id := "BTC_1", coin := "BTC", side := Side.long,
             entry_price := 100, quantity_usd := 100, leverage := 2 } :
            Position))] "BTC" = true ∧
    TradingAccount.open_position
      { initial_balance := 1000, balance := 900, realized_pnl := 0,
        positions := [("BTC",
          { position_id := "BTC_1", coin := "BTC", side := Side.long,
            entry_price := 100, quantity_usd := 100, leverage := 2 })],
        closed := [] } "BTC" Side.short 80 50 4 "BTC_3" =
      (if (50 : ℚ) ≤ (900 : ℚ) then
        some
          ({ position_id := "BTC_3", coin := "BTC", side := Side.short,
             entry_price := 80, quantity_usd := 50, leverage := 4 },
           { initial_balance := 1000, balance := 900 - 50, realized_pnl := 0,
             positions := [("BTC",
               { position_id := "BTC_1", coin := "BTC", side := Side.long,
                 entry_price := 100, quantity_usd := 100,
                 leverage := 2 })].map (fun e =>
                 if e.1 = "BTC" then
                   ("BTC",
                    { position_id := "BTC_3", coin := "BTC",
                      side := Side.short, entry_price := 80,
                      quantity_usd := 50, leverage := 4 })
                 else e),
             closed := [] })
       else none) :=
  ⟨by decide,
   open_position_on_open_coin
     { initial_balance := 1000, balance := 900, realized_pnl := 0,
       positions := [("BTC",
         { position_id := "BTC_1", coin := "BTC", side := Side.long,
           entry_price := 100, quantity_usd := 100, leverage := 2 })],
       closed := [] } "BTC" Side.short 80 50 4 "BTC_3" (by decide)⟩

/-! ### Claim C8: store close_position on an already-closed row -/

/-- C8 counterexample: the store's `close_position` runs an unconditional
`UPDATE ... WHERE position_id = ?`.  Re-closing a row that is already closed
(status `"closed"`, exit price 100) overwrites its exit fields (exit price
becomes 90, recorded P&L −3) and still reports success, refuting "fails
(does not modify the row) if that position is already closed". -/
theorem db_close_position_reclose_counterexample :
    ({ position_id := "P1", coin := "BTC", exit_time := some 1,
       exit_price := some 100, realized_pnl := some 5,
       status := "closed" } : PosRow).status = "closed" ∧
    db_close_position
      [{ position_id := "P1", coin := "BTC", exit_time := some 1,
         exit_price := some 100, realized_pnl := some 5,
         status := "closed" }] "P1" 2 90 (-3) =
      ([{ position_id := "P1", coin := "BTC", exit_time := some 2,
          exit_price := some 90, realized_pnl := some (-3),
          status := "closed" }], true) := by
  constructor
  · rfl
  · norm_num [db_close_position]

/-- C8 amended: the store's `close_position` sets the exit fields
(`exit_time`, `exit_price`, `realized_pnl`) and `status = closed` for every
row whose `position_id` matches, regardless of the row's current status —
re-closing an already-closed position overwrites its exit fields — and
returns success whenever at least one row matches; it returns failure only
when no row matches. -/
theorem db_close_position_updates_matching_row (table : List PosRow)
    (pid : String) (t : Nat) (x pnl : ℚ) (r : PosRow)
    (hmem : r ∈ table) (hpid : r.position_id = pid) :
    (db_close_position table pid t x pnl).2 = true ∧
    ({ r with exit_time := some t, exit_price := some x,
              realized_pnl := some pnl, status := "closed" } : PosRow) ∈
      (db_close_position table pid t x pnl).1 := by
  constructor
  · simp only [db_close_position, List.any_eq_true, decide_eq_true_eq]
    exact ⟨r, hmem, hpid⟩
  · simp only [db_close_position, List.mem_map]
    exact ⟨r, hmem, by rw [if_pos hpid]⟩

/-- Witness for C8 amended at a concrete already-closed row. -/
theorem db_close_position_updates_matching_row_witness :
    (({ position_id := "P2", coin := "ETH", exit_time := some 7,
        exit_price := some 20, realized_pnl := some 1,
        status := "closed" } : PosRow) ∈
      [({ position_id := "P2", coin := "ETH", exit_time := some 7,
          exit_price := some 20, realized_pnl := some 1,
          status := "closed" } : PosRow)]) ∧
    ((db_close_position
        [{ position_id := "P2", coin := "ETH", exit_time := some 7,
           exit_price := some 20, realized_pnl := some 1,
           status := "closed" }] "P2" 9 25 2).2 = true ∧
      ({ position_id := "P2", coin := "ETH", exit_time := some 9,
         exit_price := some 25, realized_pnl := some 2,
         status := "closed" } : PosRow) ∈
        (db_close_position
          [{ position_id := "P2", coin := "ETH", exit_time := some 7,
             exit_price := some 20, realized_pnl := some 1,
             status := "closed" }] "P2" 9 25 2).1) :=
  ⟨by decide,
   db_close_position_updates_matching_row
     [{ position_id := "P2", coin := "ETH", exit_time := some 7,
        exit_price := some 20, realized_pnl := some 1,
        status := "closed" }] "P2" 9 25 2
     { position_id := "P2", coin := "ETH", exit_time := some 7,
       exit_price := some 20, realized_pnl := some 1,
       status := "closed" }
     (by decide) rfl⟩

/-! ### Claim C9: single active operator input -/

/-- C9: after any `save_user_input` — from any prior table contents, hence
after any sequence of saves — the rows with `is_active = true` are exactly
the newly inserted row, which is also the last row of the table, and the
returned id is the new row's id: the save archives all prior active rows and
inserts the new row as active in one transaction. -/
theorem save_user_input_single_active (table : List UserInputRow)
    (new_id timestamp : Nat) (message message_type : String)
    (image_path : Option String) :
    (save_user_input table new_id timestamp message message_type
        image_path).1.filter (fun r => r.is_active) =
      [{ id := new_id, timestamp := timestamp, message := message,
         message_type := message_type, image_path := image_path,
         is_active := true }] ∧
    (save_user_input table new_id timestamp message message_type
        image_path).1.getLast? =
      some { id := new_id, timestamp := timestamp, message := message,
             message_type := message_type, image_path := image_path,
             is_active := true } ∧
    (save_user_input table new_id timestamp message message_type
        image_path).2 = new_id := by
  unfold save_user_input
  refine ⟨?_, ?_, rfl⟩
  · rw [List.filter_append]
    have h1 : (table.map (fun r =>
        if r.is_active then { r with is_active := false } else r)).filter
          (fun r => r.is_active) = [] := by
      rw [List.filter_eq_nil_iff]
      intro x hx
      simp only [List.mem_map] at hx
      obtain ⟨r, _, rfl⟩ := hx
      by_cases hr : r.is_active <;> simp [hr]
    rw [h1, List.nil_append]
    rfl
  · rw [List.getLast?_concat]

/-! ### Claim C10: daily P&L defaults to zero on store errors -/

/-- C10: when reading closed positions from the store raises,
`get_daily_realized_pnl` returns `0.0` instead of propagating, and with the
configured `daily_loss_limit_usd ≥ 0` (pydantic enforces `ge=0.0`) the
daily-loss-limit check of entry validation can then never be the reason a
trade is rejected. -/
theorem daily_pnl_zero_on_store_error (msg : String)
    (today_start today_end : Nat) (s : RiskSettings) (a : TradingAccount)
    (d : TradeDecision)
    (hlim : 0 ≤ s.daily_loss_limit_usd) :
    get_daily_realized_pnl (Except.error msg) today_start today_end = 0 ∧
    (validate_entry_signal s a
        (get_daily_realized_pnl (Except.error msg) today_start today_end)
        d).2 ≠ reasonDailyLossLimit := by
  have h0 : get_daily_realized_pnl (Except.error msg) today_start today_end
      = 0 := rfl
  refine ⟨h0, ?_⟩
  rw [h0]
  have hno : ¬ ((0 : ℚ) < -s.daily_loss_limit_usd) := by
    intro hc
    linarith
  unfold validate_entry_signal
  split_ifs <;> decide

/-- Witness for C10 at the default settings (`daily_loss_limit_usd = 20`). -/
theorem daily_pnl_zero_on_store_error_witness :
    ((0 : ℚ) ≤ (20 : ℚ)) ∧
    (get_daily_realized_pnl (Except.error "sqlite3.OperationalError") 0 1 = 0 ∧
     (validate_entry_signal
        { max_position_size_usd := 50, max_leverage := 5,
          daily_loss_limit_usd := 20 }
        (TradingAccount.fresh 1000)
        (get_daily_realized_pnl (Except.error "sqlite3.OperationalError") 0 1)
        { coin := "BTC", signal := TradeSignal.buy_to_enter,
          quantity_usd := 30, leverage := 3, confidence := 4/5,
          exit_plan := { profit_target := none, stop_loss := none } }).2 ≠
       reasonDailyLossLimit) :=
  ⟨by norm_num,
   daily_pnl_zero_on_store_error "sqlite3.OperationalError" 0 1
     { max_position_size_usd := 50, max_leverage := 5,
       daily_loss_limit_usd := 20 }
     (TradingAccount.fresh 1000)
     { coin := "BTC", signal := TradeSignal.buy_to_enter,
       quantity_usd := 30, leverage := 3, confidence := 4/5,
       exit_plan := { profit_target := none, stop_loss := none } }
     (by norm_num)⟩

/-! ### Claim C7: sharpe always returns None -/

/-- C7 (code bug): `calculate_sharpe_ratio` returns `None` on *every* input —
its `try` block opens with a call to `get_closed_positions`, a name
`src/trading/account.py` never imports (lines 14-20 import five other
`web.database` names), so the call raises `NameError` and the bare
`except Exception` returns `None`.  The second conjunct shows the divergence:
on the history with per-trade returns 10% and −5% (two samples, nonzero
standard deviation) the `try` body as written would have produced the numeric
value with mean 5/2 and sample variance 225/2, which the docstring and the
claim promise, yet the function yields `None` there too. -/
theorem calculate_sharpe_ratio_always_none :
    (∀ (closed_rows : List SharpeRow) (risk_free_rate : ℚ),
      calculate_sharpe_ratio closed_rows risk_free_rate = none) ∧
    sharpeTryBody
      [{ realized_pnl := some 10, quantity_usd := 100 },
       { realized_pnl := some (-5), quantity_usd := 100 }] 0 =
      some { excess_mean := 5/2, sample_variance := 225/2 } ∧
    calculate_sharpe_ratio
      [{ realized_pnl := some 10, quantity_usd := 100 },
       { realized_pnl := some (-5), quantity_usd := 100 }] 0 = none := by
  have hres : accountModuleResolves "get_closed_positions" = false := by
    decide
  refine ⟨?_, ?_, ?_⟩
  · intro closed_rows risk_free_rate
    unfold calculate_sharpe_ratio
    rw [hres]
    rfl
  · norm_num [sharpeTryBody, sharpeReturns, listMean, sampleVariance,
      List.filterMap]
  · unfold calculate_sharpe_ratio
    rw [hres]
    rfl

/-! ### Claim C6: no max_open_positions check in entry validation -/

/-- C6 counterexample: with the `bot_settings` default
`max_open_positions = 3` and three positions already open (ETH, SOL, DOGE),
an entry decision for a fourth coin (BTC, 30 USD at 3x, within every coded
limit) is *approved* by `_validate_entry_signal`: the validator has no check
of the open-position count, refuting "returns not-ok when the number of
currently open positions is ≥ max_open_positions". -/
theorem validate_entry_ignores_cap_counterexample :
    (([("ETH",
        ({ position_id := "E1", coin := "ETH", side := Side.long,
           entry_price := 100, quantity_usd := 10, leverage := 2 } :
          Position)),
       ("SOL",
        { position_id := "S1", coin := "SOL", side := Side.short,
          entry_price := 50, quantity_usd := 10, leverage := 2 }),
       ("DOGE",
        { position_id := "D1", coin := "DOGE", side := Side.long,
          entry_price := 1, quantity_usd := 10, leverage := 2 })] :
        List (String × Position)).length = 3 ∧
     default_max_open_positions ≤ 3) ∧
    validate_entry_signal
      { max_position_size_usd := 50, max_leverage := 5,
        daily_loss_limit_usd := 20 }
      { initial_balance := 1000, balance := 500, realized_pnl := 0,
        positions :=
          [("ETH",
            { position_id := "E1", coin := "ETH", side := Side.long,
              entry_price := 100, quantity_usd := 10, leverage := 2 }),
           ("SOL",
            { position_id := "S1", coin := "SOL", side := Side.short,
              entry_price := 50, quantity_usd := 10, leverage := 2 }),
           ("DOGE",
            { position_id := "D1", coin := "DOGE", side := Side.long,
              entry_price := 1, quantity_usd := 10, leverage := 2 })],
        closed := [] } 0
      { coin := "BTC", signal := TradeSignal.buy_to_enter,
        quantity_usd := 30, leverage := 3, confidence := 4/5,
        exit_plan := { profit_target := none, stop_loss := none } } =
      (true, "") := by
  refine ⟨by decide, ?_⟩
  norm_num [validate_entry_signal, dictContains, reasonSizeExceedsMax,
    reasonLeverageExceedsMax, reasonSizeTooSmall, reasonInsufficientBalance,
    reasonDailyLossLimit, reasonPositionAlreadyOpen]
  decide

/-- C6 amended: entry validation performs no open-position-count check at
all: whenever the six coded checks pass (size within `[1,
max_position_size_usd]`, leverage ≤ `max_leverage`, size ≤ balance, daily
P&L not below `−daily_loss_limit_usd`, no open position for the same coin),
the entry is approved regardless of how many positions are open — in
particular even when the open-position count is at or above any cap. -/
theorem validate_entry_ignores_position_count (s : RiskSettings)
    (a : TradingAccount) (daily_pnl : ℚ) (d : TradeDecision) (cap : Nat)
    (hcap : cap ≤ a.positions.length)
    (hq : d.quantity_usd ≤ s.max_position_size_usd)
    (hlev : d.leverage ≤ s.max_leverage)
    (hqmin : 1 ≤ d.quantity_usd)
    (hbal : d.quantity_usd ≤ a.balance)
    (hdaily : -s.daily_loss_limit_usd ≤ daily_pnl)
    (hcoin : dictContains a.positions d.coin = false) :
    validate_entry_signal s a daily_pnl d = (true, "") := by
  unfold validate_entry_signal
  rw [if_neg (not_lt.mpr hq), if_neg (not_lt.mpr hlev),
    if_neg (not_lt.mpr hqmin), if_neg (not_lt.mpr hbal),
    if_neg (not_lt.mpr hdaily)]
  simp [hcoin]

/-- Witness for C6 amended at the three-open-positions input with
`cap = default_max_open_positions = 3`. -/
theorem validate_entry_ignores_position_count_witness :
    (default_max_open_positions ≤ 3 ∧ (30 : ℚ) ≤ 50 ∧ (3 : ℚ) ≤ 5 ∧
     (1 : ℚ) ≤ 30 ∧ (30 : ℚ) ≤ 500 ∧ (-(20 : ℚ)) ≤ 0) ∧
    validate_entry_signal
      { max_position_size_usd := 50, max_leverage := 5,
        daily_loss_limit_usd := 20 }
      { initial_balance := 1000, balance := 500, realized_pnl := 0,
        positions :=
          [("ETH",
            { position_id := "E1", coin := "ETH", side := Side.long,
              entry_price := 100, quantity_usd := 10, leverage := 2 }),
           ("SOL",
            { position_id := "S1", coin := "SOL", side := Side.short,
              entry_price := 50, quantity_usd := 10, leverage := 2 }),
           ("DOGE",
            { position_id := "D1", coin := "DOGE", side := Side.long,
              entry_price := 1, quantity_usd := 10, leverage := 2 })],
        closed := [] } 0
      { coin := "BTC", signal := TradeSignal.buy_to_enter,
        quantity_usd := 30, leverage := 3, confidence := 4/5,
        exit_plan := { profit_target := none, stop_loss := none } } =
      (true, "") :=
  ⟨⟨by decide, by norm_num, by norm_num, by norm_num, by norm_num,
    by norm_num⟩,
   validate_entry_ignores_position_count
     { max_position_size_usd := 50, max_leverage := 5,
       daily_loss_limit_usd := 20 }
     { initial_balance := 1000, balance := 500, realized_pnl := 0,
       positions :=
         [("ETH",
           { position_id := "E1", coin := "ETH", side := Side.long,
             entry_price := 100, quantity_usd := 10, leverage := 2 }),
          ("SOL",
           { position_id := "S1", coin := "SOL", side := Side.short,
             entry_price := 50, quantity_usd := 10, leverage := 2 }),
          ("DOGE",
           { position_id := "D1", coin := "DOGE", side := Side.long,
             entry_price := 1, quantity_usd := 10, leverage := 2 })],
       closed := [] } 0
     { coin := "BTC", signal := TradeSignal.buy_to_enter,
       quantity_usd := 30, leverage := 3, confidence := 4/5,
       exit_plan := { profit_target := none, stop_loss := none } } 3
     (by decide) (by norm_num) (by norm_num) (by norm_num) (by norm_num)
     (by norm_num) (by decide)⟩

/-! ### Claim C3: margin accounting invariant -/

lemma marginSum_cons (x : String × Position) (t : List (String × Position)) :
    marginSum (x :: t) = x.2.quantity_usd + marginSum t := by
  simp [marginSum]

lemma marginSum_append_single (d : List (String × Position))
    (x : String × Position) :
    marginSum (d ++ [x]) = marginSum d + x.2.quantity_usd := by
  simp [marginSum]

lemma closedPnlSum_append_single (l : List ClosedTrade) (r : ClosedTrade) :
    closedPnlSum (l ++ [r]) = closedPnlSum l + r.realized_pnl := by
  simp [closedPnlSum]

lemma marginSum_erase (d : List (String × Position)) (c : String)
    (p : Position) (hwf : dictWF d) (hg : dictGet? d c = some p) :
    marginSum d = p.quantity_usd + marginSum (dictErase d c) := by
  induction d with
  | nil => simp [dictGet?] at hg
  | cons x t ih =>
    rw [dictWF, List.map_cons, List.nodup_cons] at hwf
    obtain ⟨hx, ht⟩ := hwf
    by_cases hxc : x.1 = c
    · have hfind : dictGet? (x :: t) c = some x.2 := by
        simp [dictGet?, List.find?_cons_of_pos, hxc]
      rw [hfind, Option.some.injEq] at hg
      subst hg
      have herase : dictErase (x :: t) c = dictErase t c := by
        simp [dictErase, List.filter_cons, hxc]
      have hnot : c ∉ t.map (fun e => e.1) := by
        rw [← hxc]; exact hx
      have ht' : dictErase t c = t := by
        unfold dictErase
        rw [List.filter_eq_self]
        intro e he
        simp only [decide_eq_true_eq]
        intro hec
        exact hnot (hec ▸ List.mem_map_of_mem _ he)
      rw [herase, ht', marginSum_cons]
    · have hg' : dictGet? t c = some p := by
        have : (x :: t).find? (fun e => decide (e.1 = c)) =
            t.find? (fun e => decide (e.1 = c)) := by
          apply List.find?_cons_of_neg
          simp [hxc]
        simpa [dictGet?, this] using hg
      have herase : dictErase (x :: t) c = x :: dictErase t c := by
        simp [dictErase, List.filter_cons, hxc]
      rw [herase, marginSum_cons, marginSum_cons, ih ht hg']
      ring

lemma dictWF_append_fresh (d : List (String × Position)) (c : String)
    (p : Position) (hwf : dictWF d) (hc : dictContains d c = false) :
    dictWF (d ++ [(c, p)]) := by
  unfold dictWF at hwf ⊢
  rw [List.map_append]
  rw [List.nodup_append]
  refine ⟨hwf, List.nodup_singleton _, ?_⟩
  intro k hk
  simp only [List.map_cons, List.map_nil, List.mem_singleton]
  intro hkc
  subst hkc
  obtain ⟨e, he, hek⟩ := List.mem_map.mp hk
  have : dictContains d k = true := by
    unfold dictContains
    rw [List.any_eq_true]
    exact ⟨e, he, by simp [hek]⟩
  rw [this] at hc
  cases hc

lemma dictWF_erase (d : List (String × Position)) (c : String)
    (hwf : dictWF d) : dictWF (dictErase d c) := by
  unfold dictWF at hwf ⊢
  unfold dictErase
  exact List.Nodup.sublist (List.Sublist.map _ (List.filter_sublist _)) hwf

lemma applyOp_open_preserves (a : TradingAccount) (c : String) (s : Side)
    (e q l : ℚ) (pid : String)
    (hwf : dictWF a.positions) (hinv : ledgerInvariant a)
    (hc : dictContains a.positions c = false) :
    ledgerInvariant (applyOp a (LedgerOp.openOp c s e q l pid)) ∧
    dictWF (applyOp a (LedgerOp.openOp c s e q l pid)).positions := by
  have hins : dictInsert a.positions c
      { position_id := pid, coin := c, side := s, entry_price := e,
        quantity_usd := q, leverage := l } =
      a.positions ++
        [(c, { position_id := pid, coin := c, side := s, entry_price := e,
               quantity_usd := q, leverage := l })] := by
    unfold dictInsert
    rw [hc]
    simp
  by_cases hb : a.can_open_position q = true
  · have happ : applyOp a (LedgerOp.openOp c s e q l pid) =
        { a with
          balance := a.balance - q,
          positions := a.positions ++
            [(c, { position_id := pid, coin := c, side := s,
                   entry_price := e, quantity_usd := q,
                   leverage := l })] } := by
      simp [applyOp, TradingAccount.open_position, hb, hins]
    rw [happ]
    constructor
    · unfold ledgerInvariant at hinv ⊢
      simp only [marginSum_append_single]
      linarith [hinv]
    · exact dictWF_append_fresh _ _ _ hwf hc
  · have happ : applyOp a (LedgerOp.openOp c s e q l pid) = a := by
      simp only [Bool.not_eq_true] at hb
      simp [applyOp, TradingAccount.open_position, hb]
    rw [happ]
    exact ⟨hinv, hwf⟩

lemma applyOp_close_preserves (a : TradingAccount) (c : String) (x : ℚ)
    (hwf : dictWF a.positions) (hinv : ledgerInvariant a) :
    ledgerInvariant (applyOp a (LedgerOp.closeOp c x)) ∧
    dictWF (applyOp a (LedgerOp.closeOp c x)).positions := by
  cases hg : dictGet? a.positions c with
  | none =>
    have happ : applyOp a (LedgerOp.closeOp c x) = a := by
      simp [applyOp, TradingAccount.close_position, hg]
    rw [happ]
    exact ⟨hinv, hwf⟩
  | some p =>
    have happ : applyOp a (LedgerOp.closeOp c x) =
        { a with
          balance := a.balance + p.get_margin + p.calculate_pnl x,
          realized_pnl := a.realized_pnl + p.calculate_pnl x,
          closed := a.closed ++
            [{ position_id := p.position_id, exit_price := x,
               realized_pnl := p.calculate_pnl x }],
          positions := dictErase a.positions c } := by
      simp [applyOp, TradingAccount.close_position, hg]
    rw [happ]
    constructor
    · unfold ledgerInvariant at hinv ⊢
      simp only [closedPnlSum_append_single]
      have hm := marginSum_erase a.positions c p hwf hg
      simp only [Position.get_margin]
      linarith [hinv, hm]
    · exact dictWF_erase _ _ hwf

lemma runOps_invariant (ops : List LedgerOp) :
    ∀ (a : TradingAccount), dictWF a.positions → ledgerInvariant a →
      noReplacement a ops = true →
      ledgerInvariant (runOps a ops) ∧ dictWF (runOps a ops).positions := by
  induction ops with
  | nil =>
    intro a hwf hinv _
    exact ⟨hinv, hwf⟩
  | cons op rest ih =>
    intro a hwf hinv h
    have hrun : runOps a (op :: rest) = runOps (applyOp a op) rest := by
      simp [runOps]
    rw [hrun]
    cases op with
    | openOp c s e q l pid =>
      simp only [noReplacement, Bool.and_eq_true, Bool.not_eq_true'] at h
      obtain ⟨h1, h2⟩ := h
      have step := applyOp_open_preserves a c s e q l pid hwf hinv h1
      exact ih _ step.2 step.1 h2
    | closeOp c x =>
      simp only [noReplacement, Bool.and_eq_true, true_and] at h
      have step := applyOp_close_preserves a c x hwf hinv
      exact ih _ step.2 step.1 h

/-- C3 counterexample: starting fresh with 1000, two *successful* opens on
the same coin (the second replaces the first and leaks its 100 of margin)
break the claimed invariant: balance 800 + open margin 100 ≠ initial 1000 +
closed P&L 0.  The claim as stated quantifies over all successful open/close
sequences, so this sequence refutes it. -/
theorem paper_ledger_invariant_counterexample :
    (TradingAccount.fresh 1000).open_position "BTC" Side.long 100 100 2 "B1" =
      some
        ({ position_id := "B1", coin := "BTC", side := Side.long,
           entry_price := 100, quantity_usd := 100, leverage := 2 },
         { initial_balance := 1000, balance := 900, realized_pnl := 0,
           positions := [("BTC",
             { position_id := "B1", coin := "BTC", side := Side.long,
               entry_price := 100, quantity_usd := 100, leverage := 2 })],
           closed := [] }) ∧
    TradingAccount.open_position
      { initial_balance := 1000, balance := 900, realized_pnl := 0,
        positions := [("BTC",
          { position_id := "B1", coin := "BTC", side := Side.long,
            entry_price := 100, quantity_usd := 100, leverage := 2 })],
        closed := [] } "BTC" Side.long 90 100 2 "B2" =
      some
        ({ position_id := "B2", coin := "BTC", side := Side.long,
           entry_price := 90, quantity_usd := 100, leverage := 2 },
         { initial_balance := 1000, balance := 800, realized_pnl := 0,
           positions := [("BTC",
             { position_id := "B2", coin := "BTC", side := Side.long,
               entry_price := 90, quantity_usd := 100, leverage := 2 })],
           closed := [] }) ∧
    ¬ ledgerInvariant
        { initial_balance := 1000, balance := 800, realized_pnl := 0,
          positions := [("BTC",
            { position_id := "B2", coin := "BTC", side := Side.long,
              entry_price := 90, quantity_usd := 100, leverage := 2 })],
          closed := [] } := by
  refine ⟨?_, ?_, ?_⟩
  · norm_num [TradingAccount.open_position, TradingAccount.can_open_position,
      TradingAccount.fresh, dictInsert, dictContains, List.find?]
  · norm_num [TradingAccount.open_position, TradingAccount.can_open_position,
      dictInsert, dictContains, List.find?]
  · norm_num [ledgerInvariant, marginSum, closedPnlSum]

/-- C3 amended: starting from a fresh account, after any sequence of
`open_position` / `close_position` calls in which no open targets a coin
that already has an open position (an open over an existing position
replaces it and leaks its margin, breaking the equation), the invariant
`balance + Σ margin(open positions) = initial_balance + Σ realized_pnl
(closed positions)` holds; failed calls (insufficient balance, close of a
missing coin) leave the account unchanged and are covered. -/
theorem paper_ledger_margin_invariant (initial_balance : ℚ)
    (ops : List LedgerOp)
    (h : noReplacement (TradingAccount.fresh initial_balance) ops = true) :
    ledgerInvariant (runOps (TradingAccount.fresh initial_balance) ops) :=
  (runOps_invariant ops (TradingAccount.fresh initial_balance)
    (by simp [TradingAccount.fresh, dictWF])
    (by simp [ledgerInvariant, TradingAccount.fresh, marginSum, closedPnlSum])
    h).1

/-- Witness for C3 amended on the two-operation trace open-then-close. -/
theorem paper_ledger_margin_invariant_witness :
    noReplacement (TradingAccount.fresh 1000)
      [LedgerOp.openOp "BTC" Side.long 100 50 2 "B1",
       LedgerOp.closeOp "BTC" 110] = true ∧
    ledgerInvariant (runOps (TradingAccount.fresh 1000)
      [LedgerOp.openOp "BTC" Side.long 100 50 2 "B1",
       LedgerOp.closeOp "BTC" 110]) :=
  ⟨by
    norm_num [noReplacement, applyOp, TradingAccount.open_position,
      TradingAccount.can_open_position, TradingAccount.close_position,
      TradingAccount.fresh, dictInsert, dictContains, dictGet?, dictErase,
      Position.calculate_pnl, Position.get_margin, List.find?],
   paper_ledger_margin_invariant 1000
     [LedgerOp.openOp "BTC" Side.long 100 50 2 "B1",
      LedgerOp.closeOp "BTC" 110]
     (by
       norm_num [noReplacement, applyOp, TradingAccount.open_position,
         TradingAccount.can_open_position, TradingAccount.close_position,
         TradingAccount.fresh, dictInsert, dictContains, dictGet?, dictErase,
         Position.calculate_pnl, Position.get_margin, List.find?])⟩

/-! ### Claim C2: liquidation sweep -/

lemma dictWF_entry_unique (d : List (String × Position)) (hwf : dictWF d)
    {e₁ e₂ : String × Position} (h1 : e₁ ∈ d) (h2 : e₂ ∈ d)
    (hk : e₁.1 = e₂.1) : e₁ = e₂ := by
  induction d with
  | nil => cases h1
  | cons x t ih =>
    rw [dictWF, List.map_cons, List.nodup_cons] at hwf
    obtain ⟨hx, ht⟩ := hwf
    cases List.mem_cons.mp h1 with
    | inl hh1 =>
      cases List.mem_cons.mp h2 with
      | inl hh2 => rw [hh1, hh2]
      | inr hh2 =>
        exfalso
        apply hx
        rw [hh1] at hk
        exact hk ▸ List.mem_map_of_mem _ hh2
    | inr hh1 =>
      cases List.mem_cons.mp h2 with
      | inl hh2 =>
        exfalso
        apply hx
        rw [hh2] at hk
        exact hk ▸ List.mem_map_of_mem _ hh1
      | inr hh2 => exact ih ht hh1 hh2

/-- C2 (spec-modelled, since `check_liquidation` is called but not defined in
the sources): for every price map and every open position whose current
price has crossed its liquidation threshold (long: `entry × (1 − 1/L)`,
short: `entry × (1 + 1/L)`), the sweep returns that `position_id` in its
result list, removes the coin from the open map, and records an exit row at
the liquidation price with the realized P&L of closing there. -/
theorem check_liquidation_closes_crossed (a : TradingAccount)
    (prices : List (String × ℚ)) (coin : String) (p : Position) (price : ℚ)
    (hwf : dictWF a.positions)
    (hmem : (coin, p) ∈ a.positions)
    (hprice : lookupPrice prices coin = some price)
    (hcross : crossedLiquidation p price = true) :
    p.position_id ∈ (a.check_liquidation prices).1 ∧
    dictContains (a.check_liquidation prices).2.positions coin = false ∧
    ({ position_id := p.position_id,
       exit_price :=
         calculate_liquidation_price p.entry_price p.leverage p.side,
       realized_pnl := p.calculate_pnl
         (calculate_liquidation_price p.entry_price p.leverage p.side) } :
      ClosedTrade) ∈ (a.check_liquidation prices).2.closed := by
  have hliq : liquidatesUnder prices (coin, p) = true := by
    simp [liquidatesUnder, hprice, hcross]
  refine ⟨?_, ?_, ?_⟩
  · show p.position_id ∈
      (a.positions.filter (fun e => liquidatesUnder prices e)).map
        (fun e => e.2.position_id)
    exact List.mem_map.mpr ⟨(coin, p), List.mem_filter.mpr ⟨hmem, hliq⟩, rfl⟩
  · show dictContains
      (a.positions.filter (fun e => !(liquidatesUnder prices e))) coin = false
    unfold dictContains
    rw [List.any_eq_false]
    intro e he
    simp only [List.mem_filter, Bool.not_eq_true'] at he
    simp only [decide_eq_true_eq]
    intro hec
    have heq : e = (coin, p) :=
      dictWF_entry_unique a.positions hwf he.1 hmem (by rw [hec])
    rw [heq, hliq] at he
    cases he.2
  · show _ ∈ a.closed ++
      (a.positions.filter (fun e => liquidatesUnder prices e)).map _
    exact List.mem_append_right _
      (List.mem_map.mpr ⟨(coin, p), List.mem_filter.mpr ⟨hmem, hliq⟩, rfl⟩)

/-- Witness for C2: a 5x long entered at 100 liquidates when the price
touches 80 = 100 × (1 − 1/5). -/
theorem check_liquidation_closes_crossed_witness :
    (dictWF [("BTC",
       ({ position_id := "B1", coin := "BTC", side := Side.long,
          entry_price := 100, quantity_usd := 50, leverage := 5 } :
         Position))] ∧
     crossedLiquidation
       { position_id := "B1", coin := "BTC", side := Side.long,
         entry_price := 100, quantity_usd := 50, leverage := 5 } 80 = true) ∧
    ("B1" ∈ (TradingAccount.check_liquidation
        { initial_balance := 1000, balance := 950, realized_pnl := 0,
          positions := [("BTC",
            { position_id := "B1", coin := "BTC", side := Side.long,
              entry_price := 100, quantity_usd := 50, leverage := 5 })],
          closed := [] } [("BTC", 80)]).1 ∧
     dictContains (TradingAccount.check_liquidation
        { initial_balance := 1000, balance := 950, realized_pnl := 0,
          positions := [("BTC",
            { position_id := "B1", coin := "BTC", side := Side.long,
              entry_price := 100, quantity_usd := 50, leverage := 5 })],
          closed := [] } [("BTC", 80)]).2.positions "BTC" = false ∧
     ({ position_id := "B1",
        exit_price := calculate_liquidation_price 100 5 Side.long,
        realized_pnl :=
          Position.calculate_pnl
            { position_id := "B1", coin := "BTC", side := Side.long,
              entry_price := 100, quantity_usd := 50, leverage := 5 }
            (calculate_liquidation_price 100 5 Side.long) } : ClosedTrade) ∈
       (TradingAccount.check_liquidation
        { initial_balance := 1000, balance := 950, realized_pnl := 0,
          positions := [("BTC",
            { position_id := "B1", coin := "BTC", side := Side.long,
              entry_price := 100, quantity_usd := 50, leverage := 5 })],
          closed := [] } [("BTC", 80)]).2.closed) :=
  ⟨⟨by simp [dictWF], by
      norm_num [crossedLiquidation, calculate_liquidation_price]⟩,
   check_liquidation_closes_crossed
     { initial_balance := 1000, balance := 950, realized_pnl := 0,
       positions := [("BTC",
         { position_id := "B1", coin := "BTC", side := Side.long,
           entry_price := 100, quantity_usd := 50, leverage := 5 })],
       closed := [] } [("BTC", 80)] "BTC"
     { position_id := "B1", coin := "BTC", side := Side.long,
       entry_price := 100, quantity_usd := 50, leverage := 5 } 80
     (by simp [dictWF]) (by decide) (by decide)
     (by norm_num [crossedLiquidation, calculate_liquidation_price])⟩

/-! ### Claim C4: decision insert before execution, status update after -/

/-- C4: in every cycle that reaches execution, the decision row insert
precedes every trade-execution action and every `execution_status` update,
and every `execution_status` update occurs only after the execution attempt
(no execution action follows a status update): the phase scan accepts the
cycle trace for every configuration of mode, signal, and external-call
outcomes, and the insert event is always present. -/
theorem cycle_insert_before_execution (c : CycleCfg) :
    CycleEv.decisionInsert ∈ cycleTrace c ∧
    orderedScan 0 (cycleTrace c) = true := by
  obtain ⟨il, sg, ⟨ok, ss⟩, lc, dbp, pp⟩ := c
  constructor
  · cases il <;> simp [cycleTrace]
  · cases sg <;> cases il <;> cases ok <;> cases lc <;> cases dbp <;>
      cases pp <;>
      simp only [cycleTrace, executeTradeEvents, List.nil_append,
        List.cons_append, List.append_nil, if_true, if_false,
        Bool.false_eq_true, Bool.true_eq_false] <;>
      first
        | (split_ifs <;> simp [orderedScan])
        | simp [orderedScan]

end LLMBot
